import Mathlib

/-!
# go-ceph: rate-limit admin client (`rgw/admin`) and group binding (`rbd`)

A shallow embedding of the eight rate-limit operations of `rgw/admin`
(`ratelimit.go`, `bucket_ratelimit.go`, `global_ratelimit.go`) and of the group
operations exercised by `rbd/group_test.go`.

Conventions of the embedding.

* A Go `*bool` / `*int64` is an `Option Bool` / `Option Int` (`nil` is `none`).  No
  arithmetic is done on the limits, so the 64-bit range plays no role.
* A Go `error` result is an `Option Error` (`nil` is `none`); a Go `(T, error)` result is
  a pair `T × Option Error`, because the code returns a value of `T` on every path.
* `api.call` talks to the gateway.  It is a field of `API`, a function of the gateway
  state that returns the answer and the next state.  `API.traced` adds a log of every
  invocation, so that "no call", "one call" can be stated.
* `valueToURLParams`, `json.Unmarshal` and the constant `unmarshalError` are defined outside
  `ratelimit.go`, `bucket_ratelimit.go` and `global_ratelimit.go`; the operations take them
  as arguments.
-/

namespace RgwAdmin

/-! ## Data model (`ratelimit.go`, lines 13-49) -/

/-- The request payload `RateLimitSpec`. -/
structure RateLimitSpec where
  UID : String := ""
  Bucket : String := ""
  Global : Option Bool := none
  Scope : String := ""
  Enabled : Option Bool := none
  MaxReadBytes : Option Int := none
  MaxWriteBytes : Option Int := none
  MaxReadOps : Option Int := none
  MaxWriteOps : Option Int := none
  deriving DecidableEq, Repr

/-- The response record `RateLimit`. -/
structure RateLimit where
  MaxReadOps : Option Int := none
  MaxWriteOps : Option Int := none
  MaxReadBytes : Option Int := none
  MaxWriteBytes : Option Int := none
  Enabled : Option Bool := none
  deriving DecidableEq, Repr

/-- The response shape `UserRateLimit` (JSON key `user_ratelimit`). -/
structure UserRateLimit where
  UserRateLimit : RateLimit := {}
  deriving DecidableEq, Repr

/-- The response shape `BucketRateLimit` (JSON key `bucket_ratelimit`). -/
structure BucketRateLimit where
  BucketRateLimit : RateLimit := {}
  deriving DecidableEq, Repr

/-- The response shape `GlobalRateLimit`. -/
structure GlobalRateLimit where
  BucketRateLimit : RateLimit := {}
  UserRateLimit : RateLimit := {}
  AnonymousRateLimit : RateLimit := {}
  deriving DecidableEq, Repr

/-! ## Errors and the wire layer -/

/-- Go `error` values seen by the rate-limit operations: the three sentinel errors of the
package, an error produced by the transport (`api.call`), an error produced by
`json.Unmarshal`, and the result of `fmt.Errorf` with a `%w` verb. -/
inductive Error where
  | errMissingUserID
  | errMissingBucket
  | errGlobalRateLimitFlagMustBeTrue
  | transport (msg : String)
  | json (msg : String)
  | wrapped (msg : String) (cause : Error)
  deriving DecidableEq, Repr

/-- The error wrapped by an error, as `errors.Unwrap` reports it. -/
def Error.Unwrap : Error → Option Error
  | .wrapped _ cause => some cause
  | _ => none

/-- The value of `fmt.Errorf("%s. %s. %w", unmarshalError, string(body), err)` for a decode
error `err` whose message is `jsonMsg`: the three texts joined by `". "`, wrapping `err`. -/
def unmarshalErrorf (unmarshalError body jsonMsg : String) : Error :=
  .wrapped (unmarshalError ++ ". " ++ body ++ ". " ++ jsonMsg) (.json jsonMsg)

/-- The message of an error built by `fmt.Errorf`, the only errors whose text the
operations determine. -/
def Error.wrappedMsg : Error → Option String
  | .wrapped msg _ => some msg
  | _ => none

/-- HTTP methods `http.MethodGet` and `http.MethodPost`. -/
inductive Method where
  | GET
  | POST
  deriving DecidableEq, Repr

/-- The receiver `api *API` as far as the operations use it: its method `call`, which sends
one request (method, path, parameters) and returns the body or an error; `σ` is the state of
the world the call acts on, `V` the type of encoded parameters (`url.Values`). -/
structure API (σ V : Type) where
  call : Method → String → V → σ → Except Error String × σ

/-- One invocation of `api.call`. -/
structure Request (V : Type) where
  method : Method
  path : String
  params : V
  deriving DecidableEq, Repr

/-- The same API, with every invocation of `call` appended to a log. -/
def API.traced {σ V : Type} (api : API σ V) : API (σ × List (Request V)) V where
  call := fun m p v st =>
    let r := api.call m p v st.1
    (r.1, (r.2, st.2 ++ [⟨m, p, v⟩]))

/-! ## The operations -/

/-- Embedding of `GetUserRateLimit` (`ratelimit.go`, lines 53-70). -/
def GetUserRateLimit {σ V : Type} (unmarshalError : String)
    (valueToURLParams : RateLimitSpec → List String → V)
    (jsonUnmarshal : String → Except String UserRateLimit) (api : API σ V)
    (ratelimit : RateLimitSpec) (st : σ) : (UserRateLimit × Option Error) × σ :=
  if ratelimit.UID = "" then (({}, some .errMissingUserID), st)
  else
    let ratelimit := { ratelimit with Scope := "user" }
    match api.call .GET "/ratelimit" (valueToURLParams ratelimit ["uid", "ratelimit-scope"]) st with
    | (.error err, st1) => (({}, some err), st1)
    | (.ok body, st1) =>
      match jsonUnmarshal body with
      | .error err => (({}, some (unmarshalErrorf unmarshalError body err)), st1)
      | .ok ref => ((ref, none), st1)

/-- Embedding of `SetUserRateLimit` (`ratelimit.go`, lines 74-82). -/
def SetUserRateLimit {σ V : Type} (valueToURLParams : RateLimitSpec → List String → V)
    (api : API σ V) (ratelimit : RateLimitSpec) (st : σ) : Option Error × σ :=
  if ratelimit.UID = "" then (some .errMissingUserID, st)
  else
    let ratelimit := { ratelimit with Scope := "user" }
    match api.call .POST "/ratelimit" (valueToURLParams ratelimit
      ["uid", "ratelimit-scope", "enabled", "max-read-bytes", "max-write-bytes",
        "max-read-ops", "max-write-ops"]) st with
    | (.error err, st1) => (some err, st1)
    | (.ok _, st1) => (none, st1)

/-- Embedding of `GetBucketRateLimit` (`bucket_ratelimit.go`, lines 12-29). -/
def GetBucketRateLimit {σ V : Type} (unmarshalError : String)
    (valueToURLParams : RateLimitSpec → List String → V)
    (jsonUnmarshal : String → Except String BucketRateLimit) (api : API σ V)
    (ratelimit : RateLimitSpec) (st : σ) : (BucketRateLimit × Option Error) × σ :=
  if ratelimit.Bucket = "" then (({}, some .errMissingBucket), st)
  else
    let ratelimit := { ratelimit with Scope := "bucket" }
    match api.call .GET "/ratelimit" (valueToURLParams ratelimit ["bucket", "ratelimit-scope"]) st with
    | (.error err, st1) => (({}, some err), st1)
    | (.ok body, st1) =>
      match jsonUnmarshal body with
      | .error err => (({}, some (unmarshalErrorf unmarshalError body err)), st1)
      | .ok ref => ((ref, none), st1)

/-- Embedding of `SetBucketRateLimit` (`bucket_ratelimit.go`, lines 33-41). -/
def SetBucketRateLimit {σ V : Type} (valueToURLParams : RateLimitSpec → List String → V)
    (api : API σ V) (ratelimit : RateLimitSpec) (st : σ) : Option Error × σ :=
  if ratelimit.Bucket = "" then (some .errMissingBucket, st)
  else
    let ratelimit := { ratelimit with Scope := "bucket" }
    match api.call .POST "/ratelimit" (valueToURLParams ratelimit
      ["bucket", "ratelimit-scope", "enabled", "max-read-bytes", "max-write-bytes",
        "max-read-ops", "max-write-ops"]) st with
    | (.error err, st1) => (some err, st1)
    | (.ok _, st1) => (none, st1)

/-- Embedding of `GetGlobalRateLimit` (`global_ratelimit.go`, lines 12-29). -/
def GetGlobalRateLimit {σ V : Type} (unmarshalError : String)
    (valueToURLParams : RateLimitSpec → List String → V)
    (jsonUnmarshal : String → Except String GlobalRateLimit) (api : API σ V)
    (st : σ) : (GlobalRateLimit × Option Error) × σ :=
  let global := true
  let ratelimit : RateLimitSpec := { Global := some global }
  match api.call .GET "/ratelimit" (valueToURLParams ratelimit ["global"]) st with
  | (.error err, st1) => (({}, some err), st1)
  | (.ok body, st1) =>
    match jsonUnmarshal body with
    | .error err => (({}, some (unmarshalErrorf unmarshalError body err)), st1)
    | .ok ref => ((ref, none), st1)

/-- Embedding of `SetGlobalUserRateLimit` (`global_ratelimit.go`, lines 33-41). -/
def SetGlobalUserRateLimit {σ V : Type} (valueToURLParams : RateLimitSpec → List String → V)
    (api : API σ V) (ratelimit : RateLimitSpec) (st : σ) : Option Error × σ :=
  if (match ratelimit.Global with
      | none => true
      | some g => g != true) then
    (some .errGlobalRateLimitFlagMustBeTrue, st)
  else
    let ratelimit := { ratelimit with Scope := "user" }
    match api.call .POST "/ratelimit" (valueToURLParams ratelimit
      ["global", "ratelimit-scope", "enabled", "max-read-bytes", "max-write-bytes",
        "max-read-ops", "max-write-ops"]) st with
    | (.error err, st1) => (some err, st1)
    | (.ok _, st1) => (none, st1)

/-- Embedding of `SetGlobalBucketRateLimit` (`global_ratelimit.go`, lines 45-53). -/
def SetGlobalBucketRateLimit {σ V : Type} (valueToURLParams : RateLimitSpec → List String → V)
    (api : API σ V) (ratelimit : RateLimitSpec) (st : σ) : Option Error × σ :=
  if (match ratelimit.Global with
      | none => true
      | some g => g != true) then
    (some .errGlobalRateLimitFlagMustBeTrue, st)
  else
    let ratelimit := { ratelimit with Scope := "bucket" }
    match api.call .POST "/ratelimit" (valueToURLParams ratelimit
      ["global", "ratelimit-scope", "enabled", "max-read-bytes", "max-write-bytes",
        "max-read-ops", "max-write-ops"]) st with
    | (.error err, st1) => (some err, st1)
    | (.ok _, st1) => (none, st1)

/-- Embedding of `SetGlobalAnonymousRateLimit` (`global_ratelimit.go`, lines 57-65). -/
def SetGlobalAnonymousRateLimit {σ V : Type}
    (valueToURLParams : RateLimitSpec → List String → V)
    (api : API σ V) (ratelimit : RateLimitSpec) (st : σ) : Option Error × σ :=
  if (match ratelimit.Global with
      | none => true
      | some g => g != true) then
    (some .errGlobalRateLimitFlagMustBeTrue, st)
  else
    let ratelimit := { ratelimit with Scope := "anon" }
    match api.call .POST "/ratelimit" (valueToURLParams ratelimit
      ["global", "ratelimit-scope", "enabled", "max-read-bytes", "max-write-bytes",
        "max-read-ops", "max-write-ops"]) st with
    | (.error err, st1) => (some err, st1)
    | (.ok _, st1) => (none, st1)

/-- The allow-list of the five `Set*` operations after their principal. -/
def setFields : List String :=
  ["ratelimit-scope", "enabled", "max-read-bytes", "max-write-bytes", "max-read-ops",
    "max-write-ops"]

/-! ## Vocabulary for the statements -/

/-- What a `Get*` operation returns for an answer `r` of `api.call`: the transport error
unchanged, or the decoded body, or the wrapped decode error; `zero` is the zero value of the
response type. -/
def getOutcome {α : Type} (zero : α) (unmarshalError : String)
    (jsonUnmarshal : String → Except String α) (r : Except Error String) : α × Option Error :=
  match r with
  | .error err => (zero, some err)
  | .ok body =>
    match jsonUnmarshal body with
    | .error err => (zero, some (unmarshalErrorf unmarshalError body err))
    | .ok ref => (ref, none)

/-- What a `Set*` operation returns for an answer `r` of `api.call`: its error, if any. -/
def setOutcome (r : Except Error String) : Option Error :=
  match r with
  | .error err => some err
  | .ok _ => none

/-- The invocations of `api.call` made by one run of an operation `run` that starts with an
empty log. -/
def callsMade {σ V ρ : Type} (run : σ × List (Request V) → ρ × (σ × List (Request V)))
    (st : σ) : List (Request V) :=
  (run (st, [])).2.2

/-- Whether exactly one of the three target identifiers of a spec is present: a non-empty
UID, a non-empty bucket name, a `Global` flag pointing to `true`. -/
def exactlyOneTarget (s : RateLimitSpec) : Bool :=
  (if s.UID = "" then 0 else 1) + (if s.Bucket = "" then 0 else 1)
    + (if s.Global = some true then 1 else 0) == 1

/-- Whether at least one of the three target identifiers of a spec is present. -/
def someTarget (s : RateLimitSpec) : Bool :=
  decide (s.UID ≠ "") || decide (s.Bucket ≠ "") || decide (s.Global = some true)

/-- The `Scope` fields of the request objects of a list of invocations, when the encoder is
the pairing `Prod.mk`, which hands the request object and the allow-list on as they are. -/
def scopesSent {α : Type} (calls : List (Request (RateLimitSpec × α))) : List String :=
  calls.map fun r => r.params.1.Scope

/-- A text `msg` contains the text `b` verbatim. -/
def containsText (msg b : String) : Prop :=
  ∃ pre post : String, msg = pre ++ b ++ post

/-- An API without state whose `call` answers `r` to every request. -/
def constAPI {V : Type} (r : Except Error String) : API Unit V where
  call := fun _ _ _ st => (r, st)

/-- A run of an operation on the traced API from the gateway state `st` and an empty log,
with result and final state `out`, is a single-attempt passthrough: it made exactly one call,
with method `m` on the path `/ratelimit`; the gateway is left as that call left it; and when
that call answered with an error `e`, the operation returned `onError e`. -/
def singleAttempt {σ V ρ : Type} (api : API σ V) (st : σ) (m : Method) (onError : Error → ρ)
    (out : ρ × (σ × List (Request V))) : Prop :=
  ∃ v : V, out.2.2 = [⟨m, "/ratelimit", v⟩]
    ∧ out.2.1 = (api.call m "/ratelimit" v st).2
    ∧ ∀ e, (api.call m "/ratelimit" v st).1 = .error e → out.1 = onError e

/-! ## The parameter encoder and a gateway -/

/-- A parameter value on the wire.  The textual rendering of booleans and integers is left
out: a value keeps its type. -/
inductive ParamValue where
  | str (s : String)
  | bool (b : Bool)
  | int (i : Int)
  deriving DecidableEq, Repr

/-- Encoded request parameters (`url.Values`): names with their values. -/
abbrev Values := List (String × ParamValue)

/-- The fields of a `RateLimitSpec` under their `url` tags (`ratelimit.go`, lines 14-22), in
the order of declaration; an empty string or a nil pointer carries no value. -/
def RateLimitSpec.urlFields (r : RateLimitSpec) : List (String × Option ParamValue) :=
  [("uid", if r.UID = "" then none else some (.str r.UID)),
   ("bucket", if r.Bucket = "" then none else some (.str r.Bucket)),
   ("global", r.Global.map .bool),
   ("ratelimit-scope", if r.Scope = "" then none else some (.str r.Scope)),
   ("enabled", r.Enabled.map .bool),
   ("max-read-bytes", r.MaxReadBytes.map .int),
   ("max-write-bytes", r.MaxWriteBytes.map .int),
   ("max-read-ops", r.MaxReadOps.map .int),
   ("max-write-ops", r.MaxWriteOps.map .int)]

/-- Modelled from the spec: `valueToURLParams`, the helper of `rgw/admin` that turns a request
object into parameters, is called by the operations and defined outside `ratelimit.go`,
`bucket_ratelimit.go` and `global_ratelimit.go`.  The spec makes the list passed to it an
allow-list ("GET-bucket sends only `bucket` + `ratelimit-scope`; POST-bucket sends the limit
fields too") over optional fields: a field is sent when its `url` name is on the list and it
has a value. -/
def valueToURLParams (i : RateLimitSpec) (acceptableFields : List String) : Values :=
  i.urlFields.filterMap fun kv =>
    if kv.1 ∈ acceptableFields then kv.2.map fun v => (kv.1, v) else none

/-- The names of the parameters of a request. -/
def paramNames (vals : Values) : List String :=
  vals.map Prod.fst

/-- The limit parameters of a spec that has them set, as `valueToURLParams` sends them. -/
def limitParams (s : RateLimitSpec) : Values :=
  [("enabled", s.Enabled.map ParamValue.bool),
   ("max-read-bytes", s.MaxReadBytes.map ParamValue.int),
   ("max-write-bytes", s.MaxWriteBytes.map ParamValue.int),
   ("max-read-ops", s.MaxReadOps.map ParamValue.int),
   ("max-write-ops", s.MaxWriteOps.map ParamValue.int)].filterMap
    fun kv => kv.2.map fun v => (kv.1, v)

/-- The text parameter `k` of a request. -/
def paramStr (vals : Values) (k : String) : Option String :=
  match vals.lookup k with
  | some (.str s) => some s
  | _ => none

/-- The integer parameter `k` of a request. -/
def paramInt (vals : Values) (k : String) : Option Int :=
  match vals.lookup k with
  | some (.int i) => some i
  | _ => none

/-- The boolean parameter `k` of a request. -/
def paramBool (vals : Values) (k : String) : Option Bool :=
  match vals.lookup k with
  | some (.bool b) => some b
  | _ => none

/-- The gateway of the round trip, as far as user limits go.  Its state holds, for each user
ID, the limit parameters last posted for it.  A `POST /ratelimit` with scope `user` and a
`uid` stores the posted `max-read-ops`, `max-write-ops`, `max-read-bytes`, `max-write-bytes`
and `enabled`; a `GET /ratelimit` with scope `user` and a `uid` reports what is stored under
`user_ratelimit` as `max_read_ops`, `max_write_ops`, `max_read_bytes`, `max_write_bytes` and
`enabled`, written out as a body by `render` (the gateway's JSON writer).  Any other request
is refused. -/
def gateway (render : UserRateLimit → String) : API (String → RateLimit) Values where
  call := fun m p vals st =>
    if p ≠ "/ratelimit" then (.error (.transport "not found"), st)
    else
      match paramStr vals "ratelimit-scope", paramStr vals "uid" with
      | some "user", some uid =>
        match m with
        | .POST =>
          (.ok "", Function.update st uid
            { MaxReadOps := paramInt vals "max-read-ops"
              MaxWriteOps := paramInt vals "max-write-ops"
              MaxReadBytes := paramInt vals "max-read-bytes"
              MaxWriteBytes := paramInt vals "max-write-bytes"
              Enabled := paramBool vals "enabled" })
        | .GET => (.ok (render { UserRateLimit := st uid }), st)
      | _, _ => (.error (.transport "bad request"), st)

/-- A spec that names a user, a bucket and the global flag at once. -/
def threeTargets : RateLimitSpec :=
  { UID := "alice", Bucket := "photos", Global := some true }

/-- A spec with all five limits set for the user `alice`. -/
def aliceLimits : RateLimitSpec :=
  { UID := "alice", Scope := "bucket", Enabled := some true, MaxReadBytes := some 1048576,
    MaxWriteBytes := some 524288, MaxReadOps := some 100, MaxWriteOps := some 50 }

/-- The response of the gateway for the limits of `aliceLimits`. -/
def aliceResponse : UserRateLimit :=
  { UserRateLimit :=
      { MaxReadOps := some 100, MaxWriteOps := some 50, MaxReadBytes := some 1048576,
        MaxWriteBytes := some 524288, Enabled := some true } }

/-- The JSON text of `aliceResponse`. -/
def aliceBody : String :=
  "\x7b\"user_ratelimit\":\x7b\"max_read_ops\":100,\"max_write_ops\":50," ++
    "\"max_read_bytes\":1048576,\"max_write_bytes\":524288,\"enabled\":true\x7d\x7d"

/-- A JSON writer that knows one response, `aliceResponse`. -/
def aliceRender (v : UserRateLimit) : String :=
  if v = aliceResponse then aliceBody else "\x7b\x7d"

/-- A JSON reader that knows one body, `aliceBody`. -/
def aliceUnmarshal (body : String) : Except String UserRateLimit :=
  if body = aliceBody then .ok aliceResponse else .error "unexpected end of JSON input"

end RgwAdmin

namespace Rbd

/-! ## Group operations of `rbd`

`rbd/group_test.go` exercises the operations of `rbd/group.go`, which call into the native
library.  The operations and the library are modelled from the spec (sections 4.1, 6 and 7).
The spec is silent on what the native library does when an image is unknown or a rename hits
an existing name; the model refuses those requests, and no statement below rests on that
choice. -/

/-- Modelled from the spec: a pool of the cluster, which `rbd/group.go` reaches through a
pool context; a number identifies it. -/
abbrev PoolId := Nat

/-- Modelled from the spec: an image of a pool, with the name and the identifier that the
operations of `rbd/group.go` address it by. -/
structure Image where
  pool : PoolId
  name : String
  id : String
  deriving DecidableEq, Repr

/-- Modelled from the spec: a member of a group handled by `rbd/group.go`, an image named by
its pool and identifier ("a group and its member image may live in different pools"). -/
structure Member where
  pool : PoolId
  id : String
  deriving DecidableEq, Repr

/-- Modelled from the spec: a group handled by `rbd/group.go`, "a named, server-side
collection of block-storage images", in a pool. -/
structure Group where
  pool : PoolId
  name : String
  images : List Member
  deriving DecidableEq, Repr

/-- Modelled from the spec: the state of the external cluster that `rbd/group.go` acts on,
its images and its groups. -/
structure Cluster where
  images : List Image
  groups : List Group
  deriving DecidableEq, Repr

/-- Modelled from the spec: the status of a native call made by `rbd/group.go`, "a native
status code mapped to success/error/not-found". -/
inductive Status where
  | success
  | notFound
  | error (code : Int)
  deriving DecidableEq, Repr

/-- Modelled from the spec: the recoverable error values returned by `rbd/group.go`. -/
inductive RbdError where
  | ErrNotFound
  | code (n : Int)
  deriving DecidableEq, Repr

/-- Modelled from the spec: the mapping of a native status to the error that `rbd/group.go`
returns. -/
def getError : Status → Option RbdError
  | .success => none
  | .notFound => some .ErrNotFound
  | .error n => some (.code n)

/-- Modelled from the spec: the two disjoint outcome kinds of a call into `rbd/group.go`, the
fatal misuse signal (a panic) and a returned result. -/
inductive Outcome where
  | panicked
  | returned (err : Option RbdError)
  deriving DecidableEq, Repr

/-- Modelled from the spec: a pool context passed to `rbd/group.go`, nil or the handle of an
open pool. -/
abbrev IOContext := Option PoolId

/-- Modelled from the spec: whether the group `name` exists in the pool, for the native
library behind `rbd/group.go`. -/
def groupExists (c : Cluster) (pool : PoolId) (name : String) : Bool :=
  c.groups.any fun g => g.pool = pool && g.name = name

/-- Modelled from the spec: the native group removal behind `rbd/group.go`; a group that does
not exist is reported as not found. -/
def rbd_group_remove (pool : PoolId) (name : String) (c : Cluster) : Status × Cluster :=
  if groupExists c pool name then
    (.success, { c with groups := c.groups.filter fun g => !(g.pool = pool && g.name = name) })
  else (.notFound, c)

/-- Modelled from the spec: the native group rename behind `rbd/group.go`; a source that does
not exist is reported as not found. -/
def rbd_group_rename (pool : PoolId) (src dest : String) (c : Cluster) : Status × Cluster :=
  if !groupExists c pool src then (.notFound, c)
  else if groupExists c pool dest then (.error (-17), c)
  else
    (.success, { c with groups := c.groups.map fun g =>
      if g.pool = pool && g.name = src then { g with name := dest } else g })

/-- Modelled from the spec: the native addition of an image to a group behind `rbd/group.go`;
a group that does not exist is reported as not found. -/
def rbd_group_image_add (groupPool : PoolId) (groupName : String) (imagePool : PoolId)
    (imageName : String) (c : Cluster) : Status × Cluster :=
  if !groupExists c groupPool groupName then (.notFound, c)
  else
    match c.images.find? fun i => i.pool = imagePool && i.name = imageName with
    | none => (.notFound, c)
    | some img =>
      (.success, { c with groups := c.groups.map fun g =>
        if g.pool = groupPool && g.name = groupName then
          { g with images := g.images ++ [⟨imagePool, img.id⟩] }
        else g })

/-- Modelled from the spec: the native removal of an image, given by identifier, from a group
behind `rbd/group.go`; a group that does not exist is reported as not found. -/
def rbd_group_image_remove_by_id (groupPool : PoolId) (groupName : String) (imagePool : PoolId)
    (imageID : String) (c : Cluster) : Status × Cluster :=
  if !groupExists c groupPool groupName then (.notFound, c)
  else
    (.success, { c with groups := c.groups.map fun g =>
      if g.pool = groupPool && g.name = groupName then
        { g with images := g.images.filter fun m => !(m.pool = imagePool && m.id = imageID) }
      else g })

/-- Modelled from the spec: the native removal of an image, given by name, from a group behind
`rbd/group.go`; a group that does not exist is reported as not found. -/
def rbd_group_image_remove (groupPool : PoolId) (groupName : String) (imagePool : PoolId)
    (imageName : String) (c : Cluster) : Status × Cluster :=
  if !groupExists c groupPool groupName then (.notFound, c)
  else
    match c.images.find? fun i => i.pool = imagePool && i.name = imageName with
    | none => (.notFound, c)
    | some img => rbd_group_image_remove_by_id groupPool groupName imagePool img.id c

/-- Modelled from the spec: `GroupRemove` of `rbd/group.go` on an open pool context, one
native call; "idempotent operations (group removal) intentionally swallow not found as
success". -/
def GroupRemove (ioctx : PoolId) (name : String) (c : Cluster) : Option RbdError × Cluster :=
  match rbd_group_remove ioctx name c with
  | (.notFound, c1) => (none, c1)
  | (status, c1) => (getError status, c1)

/-- Modelled from the spec: `GroupRename` of `rbd/group.go` on an open pool context, one
native call; "non-idempotent operations (rename) propagate not found as failure". -/
def GroupRename (ioctx : PoolId) (src dest : String) (c : Cluster) :
    Option RbdError × Cluster :=
  match rbd_group_rename ioctx src dest c with
  | (status, c1) => (getError status, c1)

/-- Modelled from the spec: `GroupImageAdd` of `rbd/group.go`; a nil pool handle is "rejected
by raising a programming-error signal", otherwise one native call is made and its status
returned. -/
def GroupImageAdd (groupIoctx : IOContext) (groupName : String) (imageIoctx : IOContext)
    (imageName : String) (c : Cluster) : Outcome × Cluster :=
  match groupIoctx, imageIoctx with
  | some g, some i =>
    match rbd_group_image_add g groupName i imageName c with
    | (status, c1) => (.returned (getError status), c1)
  | _, _ => (.panicked, c)

/-- Modelled from the spec: `GroupImageRemove` of `rbd/group.go`; a nil pool handle is
"rejected by raising a programming-error signal", otherwise one native call is made and its
status returned. -/
def GroupImageRemove (groupIoctx : IOContext) (groupName : String) (imageIoctx : IOContext)
    (imageName : String) (c : Cluster) : Outcome × Cluster :=
  match groupIoctx, imageIoctx with
  | some g, some i =>
    match rbd_group_image_remove g groupName i imageName c with
    | (status, c1) => (.returned (getError status), c1)
  | _, _ => (.panicked, c)

/-- Modelled from the spec: `GroupImageRemoveByID` of `rbd/group.go`; a nil pool handle is
"rejected by raising a programming-error signal", otherwise one native call is made and its
status returned. -/
def GroupImageRemoveByID (groupIoctx : IOContext) (groupName : String)
    (imageIoctx : IOContext) (imageID : String) (c : Cluster) : Outcome × Cluster :=
  match groupIoctx, imageIoctx with
  | some g, some i =>
    match rbd_group_image_remove_by_id g groupName i imageID c with
    | (status, c1) => (.returned (getError status), c1)
  | _, _ => (.panicked, c)

/-- A cluster with one image and the two groups `group` and `grone` in pool 0. -/
def sampleCluster : Cluster :=
  { images := [⟨0, "img", "10ab"⟩],
    groups := [⟨0, "group", []⟩, ⟨0, "grone", [⟨0, "10ab"⟩]⟩] }

end Rbd

namespace RgwAdmin

variable {σ V : Type}

theorem traced_call (api : API σ V) (m : Method) (p : String) (v : V) (st : σ)
    (log : List (Request V)) :
    api.traced.call m p v (st, log)
      = ((api.call m p v st).1, ((api.call m p v st).2, log ++ [⟨m, p, v⟩])) := rfl

theorem GetUserRateLimit_reject (ue : String) (enc : RateLimitSpec → List String → V)
    (dec : String → Except String UserRateLimit) (api : API σ V) (s : RateLimitSpec) (st : σ)
    (h : s.UID = "") :
    GetUserRateLimit ue enc dec api s st = (({}, some .errMissingUserID), st) := by
  simp [GetUserRateLimit, h]

theorem GetUserRateLimit_accept (ue : String) (enc : RateLimitSpec → List String → V)
    (dec : String → Except String UserRateLimit) (api : API σ V) (s : RateLimitSpec) (st : σ)
    (h : s.UID ≠ "") :
    GetUserRateLimit ue enc dec api s st
      = (getOutcome {} ue dec
          (api.call .GET "/ratelimit" (enc { s with Scope := "user" } ["uid", "ratelimit-scope"])
            st).1,
        (api.call .GET "/ratelimit" (enc { s with Scope := "user" } ["uid", "ratelimit-scope"])
          st).2) := by
  simp only [GetUserRateLimit, h, if_false]
  rcases api.call .GET "/ratelimit" (enc { s with Scope := "user" } ["uid", "ratelimit-scope"])
    st with ⟨r, st1⟩
  cases r with
  | error e => rfl
  | ok body =>
    simp only [getOutcome]
    cases dec body <;> rfl

theorem SetUserRateLimit_reject (enc : RateLimitSpec → List String → V) (api : API σ V)
    (s : RateLimitSpec) (st : σ) (h : s.UID = "") :
    SetUserRateLimit enc api s st = (some .errMissingUserID, st) := by
  simp [SetUserRateLimit, h]

theorem SetUserRateLimit_accept (enc : RateLimitSpec → List String → V) (api : API σ V)
    (s : RateLimitSpec) (st : σ) (h : s.UID ≠ "") :
    SetUserRateLimit enc api s st
      = (setOutcome (api.call .POST "/ratelimit"
            (enc { s with Scope := "user" } ("uid" :: setFields)) st).1,
          (api.call .POST "/ratelimit"
            (enc { s with Scope := "user" } ("uid" :: setFields)) st).2) := by
  simp only [SetUserRateLimit, h, if_false, setFields]
  rcases api.call .POST "/ratelimit" (enc { s with Scope := "user" }
    ["uid", "ratelimit-scope", "enabled", "max-read-bytes", "max-write-bytes",
        "max-read-ops", "max-write-ops"]) st with ⟨r, st1⟩
  cases r <;> rfl

theorem GetBucketRateLimit_reject (ue : String) (enc : RateLimitSpec → List String → V)
    (dec : String → Except String BucketRateLimit) (api : API σ V) (s : RateLimitSpec) (st : σ)
    (h : s.Bucket = "") :
    GetBucketRateLimit ue enc dec api s st = (({}, some .errMissingBucket), st) := by
  simp [GetBucketRateLimit, h]

theorem GetBucketRateLimit_accept (ue : String) (enc : RateLimitSpec → List String → V)
    (dec : String → Except String BucketRateLimit) (api : API σ V) (s : RateLimitSpec) (st : σ)
    (h : s.Bucket ≠ "") :
    GetBucketRateLimit ue enc dec api s st
      = (getOutcome {} ue dec
          (api.call .GET "/ratelimit"
            (enc { s with Scope := "bucket" } ["bucket", "ratelimit-scope"]) st).1,
        (api.call .GET "/ratelimit"
          (enc { s with Scope := "bucket" } ["bucket", "ratelimit-scope"]) st).2) := by
  simp only [GetBucketRateLimit, h, if_false]
  rcases api.call .GET "/ratelimit"
    (enc { s with Scope := "bucket" } ["bucket", "ratelimit-scope"]) st with ⟨r, st1⟩
  cases r with
  | error e => rfl
  | ok body =>
    simp only [getOutcome]
    cases dec body <;> rfl

theorem SetBucketRateLimit_reject (enc : RateLimitSpec → List String → V) (api : API σ V)
    (s : RateLimitSpec) (st : σ) (h : s.Bucket = "") :
    SetBucketRateLimit enc api s st = (some .errMissingBucket, st) := by
  simp [SetBucketRateLimit, h]

theorem SetBucketRateLimit_accept (enc : RateLimitSpec → List String → V) (api : API σ V)
    (s : RateLimitSpec) (st : σ) (h : s.Bucket ≠ "") :
    SetBucketRateLimit enc api s st
      = (setOutcome (api.call .POST "/ratelimit"
            (enc { s with Scope := "bucket" } ("bucket" :: setFields)) st).1,
          (api.call .POST "/ratelimit"
            (enc { s with Scope := "bucket" } ("bucket" :: setFields)) st).2) := by
  simp only [SetBucketRateLimit, h, if_false, setFields]
  rcases api.call .POST "/ratelimit" (enc { s with Scope := "bucket" }
    ["bucket", "ratelimit-scope", "enabled", "max-read-bytes", "max-write-bytes",
        "max-read-ops", "max-write-ops"]) st with ⟨r, st1⟩
  cases r <;> rfl

theorem GetGlobalRateLimit_eq (ue : String) (enc : RateLimitSpec → List String → V)
    (dec : String → Except String GlobalRateLimit) (api : API σ V) (st : σ) :
    GetGlobalRateLimit ue enc dec api st
      = (getOutcome {} ue dec
          (api.call .GET "/ratelimit" (enc { Global := some true } ["global"]) st).1,
        (api.call .GET "/ratelimit" (enc { Global := some true } ["global"]) st).2) := by
  simp only [GetGlobalRateLimit]
  rcases api.call .GET "/ratelimit" (enc { Global := some true } ["global"]) st with ⟨r, st1⟩
  cases r with
  | error e => rfl
  | ok body =>
    simp only [getOutcome]
    cases dec body <;> rfl

/-- The validation of the three `SetGlobal*` operations rejects exactly the specs whose flag
is nil or points to false. -/
theorem global_check_iff (g : Option Bool) :
    (match g with
      | none => true
      | some b => b != true) = true ↔ (g = none ∨ g = some false) := by
  cases g with
  | none => simp
  | some b => cases b <;> simp

theorem SetGlobalUserRateLimit_reject (enc : RateLimitSpec → List String → V) (api : API σ V)
    (s : RateLimitSpec) (st : σ) (h : s.Global = none ∨ s.Global = some false) :
    SetGlobalUserRateLimit enc api s st = (some .errGlobalRateLimitFlagMustBeTrue, st) := by
  simp only [SetGlobalUserRateLimit, (global_check_iff s.Global).2 h, if_true]

theorem SetGlobalUserRateLimit_accept (enc : RateLimitSpec → List String → V) (api : API σ V)
    (s : RateLimitSpec) (st : σ) (h : s.Global = some true) :
    SetGlobalUserRateLimit enc api s st
      = (setOutcome (api.call .POST "/ratelimit"
            (enc { s with Scope := "user" } ("global" :: setFields)) st).1,
          (api.call .POST "/ratelimit"
            (enc { s with Scope := "user" } ("global" :: setFields)) st).2) := by
  unfold SetGlobalUserRateLimit
  split
  · rename_i hc
    rw [h] at hc
    simp at hc
  · simp only [setFields]
    rcases api.call .POST "/ratelimit" (enc { s with Scope := "user" }
      ["global", "ratelimit-scope", "enabled", "max-read-bytes", "max-write-bytes",
        "max-read-ops", "max-write-ops"]) st with ⟨r, st1⟩
    cases r <;> rfl

theorem SetGlobalBucketRateLimit_reject (enc : RateLimitSpec → List String → V)
    (api : API σ V) (s : RateLimitSpec) (st : σ)
    (h : s.Global = none ∨ s.Global = some false) :
    SetGlobalBucketRateLimit enc api s st = (some .errGlobalRateLimitFlagMustBeTrue, st) := by
  simp only [SetGlobalBucketRateLimit, (global_check_iff s.Global).2 h, if_true]

theorem SetGlobalBucketRateLimit_accept (enc : RateLimitSpec → List String → V)
    (api : API σ V) (s : RateLimitSpec) (st : σ) (h : s.Global = some true) :
    SetGlobalBucketRateLimit enc api s st
      = (setOutcome (api.call .POST "/ratelimit"
            (enc { s with Scope := "bucket" } ("global" :: setFields)) st).1,
          (api.call .POST "/ratelimit"
            (enc { s with Scope := "bucket" } ("global" :: setFields)) st).2) := by
  unfold SetGlobalBucketRateLimit
  split
  · rename_i hc
    rw [h] at hc
    simp at hc
  · simp only [setFields]
    rcases api.call .POST "/ratelimit" (enc { s with Scope := "bucket" }
      ["global", "ratelimit-scope", "enabled", "max-read-bytes", "max-write-bytes",
        "max-read-ops", "max-write-ops"]) st with ⟨r, st1⟩
    cases r <;> rfl

theorem SetGlobalAnonymousRateLimit_reject (enc : RateLimitSpec → List String → V)
    (api : API σ V) (s : RateLimitSpec) (st : σ)
    (h : s.Global = none ∨ s.Global = some false) :
    SetGlobalAnonymousRateLimit enc api s st
      = (some .errGlobalRateLimitFlagMustBeTrue, st) := by
  simp only [SetGlobalAnonymousRateLimit, (global_check_iff s.Global).2 h, if_true]

theorem SetGlobalAnonymousRateLimit_accept (enc : RateLimitSpec → List String → V)
    (api : API σ V) (s : RateLimitSpec) (st : σ) (h : s.Global = some true) :
    SetGlobalAnonymousRateLimit enc api s st
      = (setOutcome (api.call .POST "/ratelimit"
            (enc { s with Scope := "anon" } ("global" :: setFields)) st).1,
          (api.call .POST "/ratelimit"
            (enc { s with Scope := "anon" } ("global" :: setFields)) st).2) := by
  unfold SetGlobalAnonymousRateLimit
  split
  · rename_i hc
    rw [h] at hc
    simp at hc
  · simp only [setFields]
    rcases api.call .POST "/ratelimit" (enc { s with Scope := "anon" }
      ["global", "ratelimit-scope", "enabled", "max-read-bytes", "max-write-bytes",
        "max-read-ops", "max-write-ops"]) st with ⟨r, st1⟩
    cases r <;> rfl

theorem global_flag_cases (g : Option Bool) :
    (g = none ∨ g = some false) ∨ g = some true := by
  cases g with
  | none => simp
  | some b => cases b <;> simp

theorem getOutcome_error {α : Type} (zero : α) (ue : String)
    (dec : String → Except String α) (e : Error) :
    getOutcome zero ue dec (.error e) = (zero, some e) := rfl

theorem setOutcome_error (e : Error) : setOutcome (.error e) = some e := rfl

/-- C1: the user operations reject at validation (errMissingUserID, no call, zero response
for Get) exactly when the UID is empty, and the bucket operations reject (errMissingBucket,
no call, zero response for Get) exactly when the bucket name is empty, whatever the other
fields of the spec are. -/
theorem missing_principal_rejected_iff (ue : String)
    (enc : RateLimitSpec → List String → V)
    (decU : String → Except String UserRateLimit)
    (decB : String → Except String BucketRateLimit)
    (api : API σ V) (s : RateLimitSpec) (st : σ) :
    (s.UID = "" ↔
      GetUserRateLimit ue enc decU api.traced s (st, [])
        = (({}, some .errMissingUserID), (st, [])))
    ∧ (s.UID = "" ↔
      SetUserRateLimit enc api.traced s (st, []) = (some .errMissingUserID, (st, [])))
    ∧ (s.Bucket = "" ↔
      GetBucketRateLimit ue enc decB api.traced s (st, [])
        = (({}, some .errMissingBucket), (st, [])))
    ∧ (s.Bucket = "" ↔
      SetBucketRateLimit enc api.traced s (st, []) = (some .errMissingBucket, (st, []))) := by
  refine ⟨⟨?_, ?_⟩, ⟨?_, ?_⟩, ⟨?_, ?_⟩, ⟨?_, ?_⟩⟩
  · exact GetUserRateLimit_reject ue enc decU api.traced s (st, [])
  · intro h
    by_contra hne
    rw [GetUserRateLimit_accept ue enc decU api.traced s (st, []) hne] at h
    have h2 := congrArg (fun x => x.2.2) h
    simp [traced_call] at h2
  · exact SetUserRateLimit_reject enc api.traced s (st, [])
  · intro h
    by_contra hne
    rw [SetUserRateLimit_accept enc api.traced s (st, []) hne] at h
    have h2 := congrArg (fun x => x.2.2) h
    simp [traced_call] at h2
  · exact GetBucketRateLimit_reject ue enc decB api.traced s (st, [])
  · intro h
    by_contra hne
    rw [GetBucketRateLimit_accept ue enc decB api.traced s (st, []) hne] at h
    have h2 := congrArg (fun x => x.2.2) h
    simp [traced_call] at h2
  · exact SetBucketRateLimit_reject enc api.traced s (st, [])
  · intro h
    by_contra hne
    rw [SetBucketRateLimit_accept enc api.traced s (st, []) hne] at h
    have h2 := congrArg (fun x => x.2.2) h
    simp [traced_call] at h2

/-- C2: each of the three SetGlobal* operations rejects at validation
(errGlobalRateLimitFlagMustBeTrue, no call) exactly when Global is nil or points to false;
a spec whose Global points to true makes exactly one call, a POST on /ratelimit, whatever
its UID, Bucket and Scope are. -/
theorem global_flag_must_be_true (enc : RateLimitSpec → List String → V) (api : API σ V)
    (s : RateLimitSpec) (st : σ) :
    ((s.Global = none ∨ s.Global = some false) ↔
      SetGlobalUserRateLimit enc api.traced s (st, [])
        = (some .errGlobalRateLimitFlagMustBeTrue, (st, [])))
    ∧ ((s.Global = none ∨ s.Global = some false) ↔
      SetGlobalBucketRateLimit enc api.traced s (st, [])
        = (some .errGlobalRateLimitFlagMustBeTrue, (st, [])))
    ∧ ((s.Global = none ∨ s.Global = some false) ↔
      SetGlobalAnonymousRateLimit enc api.traced s (st, [])
        = (some .errGlobalRateLimitFlagMustBeTrue, (st, [])))
    ∧ (s.Global = some true →
      callsMade (SetGlobalUserRateLimit enc api.traced s) st
          = [⟨.POST, "/ratelimit", enc { s with Scope := "user" } ("global" :: setFields)⟩]
        ∧ callsMade (SetGlobalBucketRateLimit enc api.traced s) st
          = [⟨.POST, "/ratelimit", enc { s with Scope := "bucket" } ("global" :: setFields)⟩]
        ∧ callsMade (SetGlobalAnonymousRateLimit enc api.traced s) st
          = [⟨.POST, "/ratelimit", enc { s with Scope := "anon" } ("global" :: setFields)⟩]) := by
  refine ⟨⟨?_, ?_⟩, ⟨?_, ?_⟩, ⟨?_, ?_⟩, ?_⟩
  · exact SetGlobalUserRateLimit_reject enc api.traced s (st, [])
  · intro h
    rcases global_flag_cases s.Global with hg | hg
    · exact hg
    · rw [SetGlobalUserRateLimit_accept enc api.traced s (st, []) hg] at h
      have h2 := congrArg (fun x => x.2.2) h
      simp [traced_call] at h2
  · exact SetGlobalBucketRateLimit_reject enc api.traced s (st, [])
  · intro h
    rcases global_flag_cases s.Global with hg | hg
    · exact hg
    · rw [SetGlobalBucketRateLimit_accept enc api.traced s (st, []) hg] at h
      have h2 := congrArg (fun x => x.2.2) h
      simp [traced_call] at h2
  · exact SetGlobalAnonymousRateLimit_reject enc api.traced s (st, [])
  · intro h
    rcases global_flag_cases s.Global with hg | hg
    · exact hg
    · rw [SetGlobalAnonymousRateLimit_accept enc api.traced s (st, []) hg] at h
      have h2 := congrArg (fun x => x.2.2) h
      simp [traced_call] at h2
  · intro hg
    refine ⟨?_, ?_, ?_⟩
    · simp [callsMade, SetGlobalUserRateLimit_accept enc api.traced s (st, []) hg, traced_call]
    · simp [callsMade, SetGlobalBucketRateLimit_accept enc api.traced s (st, []) hg,
        traced_call]
    · simp [callsMade, SetGlobalAnonymousRateLimit_accept enc api.traced s (st, []) hg,
        traced_call]

/-- Witness of C2: the spec `threeTargets`, whose Global points to true and which also names
a user and a bucket, passes the validation of the three SetGlobal* operations. -/
theorem global_flag_must_be_true_witness :
    callsMade (SetGlobalUserRateLimit valueToURLParams
        (constAPI (.ok "")).traced threeTargets) ()
      = [⟨.POST, "/ratelimit",
          [("global", .bool true), ("ratelimit-scope", .str "user")]⟩]
    ∧ callsMade (SetGlobalBucketRateLimit valueToURLParams
        (constAPI (.ok "")).traced threeTargets) ()
      = [⟨.POST, "/ratelimit",
          [("global", .bool true), ("ratelimit-scope", .str "bucket")]⟩]
    ∧ callsMade (SetGlobalAnonymousRateLimit valueToURLParams
        (constAPI (.ok "")).traced threeTargets) ()
      = [⟨.POST, "/ratelimit",
          [("global", .bool true), ("ratelimit-scope", .str "anon")]⟩] :=
  (global_flag_must_be_true valueToURLParams (constAPI (.ok "")) threeTargets ()).2.2.2 rfl

/-- C3: for a spec that passes validation, the request object handed to the wire layer has
Scope "user" for SetUserRateLimit and SetGlobalUserRateLimit, "bucket" for SetBucketRateLimit
and SetGlobalBucketRateLimit and "anon" for SetGlobalAnonymousRateLimit, whatever Scope the
caller supplied; and a spec with its Scope replaced by any other value gives the same run of
the same Set* operation (same result, same requests). -/
theorem scope_forced_by_operation (spy : API σ (RateLimitSpec × List String))
    (enc : RateLimitSpec → List String → V) (api : API σ V) (s : RateLimitSpec) (st : σ) :
    (s.UID ≠ "" →
      scopesSent (callsMade (SetUserRateLimit Prod.mk spy.traced s) st) = ["user"])
    ∧ (s.Bucket ≠ "" →
      scopesSent (callsMade (SetBucketRateLimit Prod.mk spy.traced s) st) = ["bucket"])
    ∧ (s.Global = some true →
      scopesSent (callsMade (SetGlobalUserRateLimit Prod.mk spy.traced s) st) = ["user"]
      ∧ scopesSent (callsMade (SetGlobalBucketRateLimit Prod.mk spy.traced s) st) = ["bucket"]
      ∧ scopesSent (callsMade (SetGlobalAnonymousRateLimit Prod.mk spy.traced s) st)
          = ["anon"])
    ∧ ∀ c : String,
      SetUserRateLimit enc api.traced { s with Scope := c } (st, [])
          = SetUserRateLimit enc api.traced s (st, [])
        ∧ SetBucketRateLimit enc api.traced { s with Scope := c } (st, [])
          = SetBucketRateLimit enc api.traced s (st, [])
        ∧ SetGlobalUserRateLimit enc api.traced { s with Scope := c } (st, [])
          = SetGlobalUserRateLimit enc api.traced s (st, [])
        ∧ SetGlobalBucketRateLimit enc api.traced { s with Scope := c } (st, [])
          = SetGlobalBucketRateLimit enc api.traced s (st, [])
        ∧ SetGlobalAnonymousRateLimit enc api.traced { s with Scope := c } (st, [])
          = SetGlobalAnonymousRateLimit enc api.traced s (st, []) := by
  refine ⟨?_, ?_, ?_, ?_⟩
  · intro h
    simp [scopesSent, callsMade, SetUserRateLimit_accept Prod.mk spy.traced s (st, []) h,
      traced_call]
  · intro h
    simp [scopesSent, callsMade, SetBucketRateLimit_accept Prod.mk spy.traced s (st, []) h,
      traced_call]
  · intro h
    refine ⟨?_, ?_, ?_⟩
    · simp [scopesSent, callsMade,
        SetGlobalUserRateLimit_accept Prod.mk spy.traced s (st, []) h, traced_call]
    · simp [scopesSent, callsMade,
        SetGlobalBucketRateLimit_accept Prod.mk spy.traced s (st, []) h, traced_call]
    · simp [scopesSent, callsMade,
        SetGlobalAnonymousRateLimit_accept Prod.mk spy.traced s (st, []) h, traced_call]
  · intro c
    exact ⟨rfl, rfl, rfl, rfl, rfl⟩

/-- Witness of C3: the spec `threeTargets` passes the validation of all five Set* operations,
and each hands on a request object with the scope of the operation. -/
theorem scope_forced_by_operation_witness :
    scopesSent (callsMade (SetUserRateLimit Prod.mk
        (constAPI (.ok "")).traced threeTargets) ()) = ["user"]
    ∧ scopesSent (callsMade (SetBucketRateLimit Prod.mk
        (constAPI (.ok "")).traced threeTargets) ()) = ["bucket"]
    ∧ scopesSent (callsMade (SetGlobalUserRateLimit Prod.mk
        (constAPI (.ok "")).traced threeTargets) ()) = ["user"]
    ∧ scopesSent (callsMade (SetGlobalBucketRateLimit Prod.mk
        (constAPI (.ok "")).traced threeTargets) ()) = ["bucket"]
    ∧ scopesSent (callsMade (SetGlobalAnonymousRateLimit Prod.mk
        (constAPI (.ok "")).traced threeTargets) ()) = ["anon"] :=
  have h := scope_forced_by_operation (constAPI (.ok "")) valueToURLParams
    (constAPI (.ok "")) threeTargets ()
  ⟨h.1 (by decide), h.2.1 (by decide), h.2.2.1 rfl⟩

theorem params_get_user (s : RateLimitSpec) (h : s.UID ≠ "") :
    valueToURLParams { s with Scope := "user" } ["uid", "ratelimit-scope"]
      = [("uid", .str s.UID), ("ratelimit-scope", .str "user")] := by
  simp [valueToURLParams, RateLimitSpec.urlFields, h]

theorem params_get_bucket (s : RateLimitSpec) (h : s.Bucket ≠ "") :
    valueToURLParams { s with Scope := "bucket" } ["bucket", "ratelimit-scope"]
      = [("bucket", .str s.Bucket), ("ratelimit-scope", .str "bucket")] := by
  simp [valueToURLParams, RateLimitSpec.urlFields, h]

theorem params_get_global :
    valueToURLParams { Global := some true } ["global"] = [("global", .bool true)] := by
  simp [valueToURLParams, RateLimitSpec.urlFields]

theorem params_set_user (s : RateLimitSpec) (h : s.UID ≠ "") :
    valueToURLParams { s with Scope := "user" } ("uid" :: setFields)
      = ("uid", .str s.UID) :: ("ratelimit-scope", .str "user") :: limitParams s := by
  rcases s with ⟨uid, bucket, g, scope, en, rb, wb, ro, wo⟩
  simp only at h
  cases en <;> cases rb <;> cases wb <;> cases ro <;> cases wo <;>
    simp [valueToURLParams, RateLimitSpec.urlFields, h, setFields, limitParams]

theorem params_set_bucket (s : RateLimitSpec) (h : s.Bucket ≠ "") :
    valueToURLParams { s with Scope := "bucket" } ("bucket" :: setFields)
      = ("bucket", .str s.Bucket) :: ("ratelimit-scope", .str "bucket") :: limitParams s := by
  rcases s with ⟨uid, bucket, g, scope, en, rb, wb, ro, wo⟩
  simp only at h
  cases en <;> cases rb <;> cases wb <;> cases ro <;> cases wo <;>
    simp [valueToURLParams, RateLimitSpec.urlFields, h, setFields, limitParams]

theorem params_set_global (s : RateLimitSpec) (scope : String) (h : s.Global = some true)
    (hs : scope ≠ "") :
    valueToURLParams { s with Scope := scope } ("global" :: setFields)
      = ("global", .bool true) :: ("ratelimit-scope", .str scope) :: limitParams s := by
  rcases s with ⟨uid, bucket, g, sc, en, rb, wb, ro, wo⟩
  simp only at h
  cases en <;> cases rb <;> cases wb <;> cases ro <;> cases wo <;>
    simp [valueToURLParams, RateLimitSpec.urlFields, h, hs, setFields, limitParams]

theorem limitParams_names (s : RateLimitSpec) :
    ∀ k ∈ paramNames (limitParams s),
      k ∈ ["enabled", "max-read-bytes", "max-write-bytes", "max-read-ops", "max-write-ops"] := by
  rcases s with ⟨uid, bucket, g, sc, en, rb, wb, ro, wo⟩
  cases en <;> cases rb <;> cases wb <;> cases ro <;> cases wo <;>
    simp [paramNames, limitParams]

/-- C4: with the encoder modelled from the spec, the parameters of the one request of an
accepted call are those of the allow-list of the operation and no others: GetBucketRateLimit
sends bucket and ratelimit-scope, GetUserRateLimit uid and ratelimit-scope,
GetGlobalRateLimit global, and the Set* operations their principal, ratelimit-scope and those
of enabled, max-read-bytes, max-write-bytes, max-read-ops, max-write-ops that are set. -/
theorem wire_fields_allow_list (ue : String)
    (decU : String → Except String UserRateLimit)
    (decB : String → Except String BucketRateLimit)
    (decG : String → Except String GlobalRateLimit)
    (api : API σ Values) (s : RateLimitSpec) (st : σ) :
    (s.UID ≠ "" →
      callsMade (GetUserRateLimit ue valueToURLParams decU api.traced s) st
          = [⟨.GET, "/ratelimit", [("uid", .str s.UID), ("ratelimit-scope", .str "user")]⟩]
      ∧ callsMade (SetUserRateLimit valueToURLParams api.traced s) st
          = [⟨.POST, "/ratelimit",
              ("uid", .str s.UID) :: ("ratelimit-scope", .str "user") :: limitParams s⟩])
    ∧ (s.Bucket ≠ "" →
      callsMade (GetBucketRateLimit ue valueToURLParams decB api.traced s) st
          = [⟨.GET, "/ratelimit",
              [("bucket", .str s.Bucket), ("ratelimit-scope", .str "bucket")]⟩]
      ∧ callsMade (SetBucketRateLimit valueToURLParams api.traced s) st
          = [⟨.POST, "/ratelimit",
              ("bucket", .str s.Bucket) :: ("ratelimit-scope", .str "bucket")
                :: limitParams s⟩])
    ∧ callsMade (GetGlobalRateLimit ue valueToURLParams decG api.traced) st
        = [⟨.GET, "/ratelimit", [("global", .bool true)]⟩]
    ∧ (s.Global = some true →
      callsMade (SetGlobalUserRateLimit valueToURLParams api.traced s) st
          = [⟨.POST, "/ratelimit",
              ("global", .bool true) :: ("ratelimit-scope", .str "user") :: limitParams s⟩]
      ∧ callsMade (SetGlobalBucketRateLimit valueToURLParams api.traced s) st
          = [⟨.POST, "/ratelimit",
              ("global", .bool true) :: ("ratelimit-scope", .str "bucket") :: limitParams s⟩]
      ∧ callsMade (SetGlobalAnonymousRateLimit valueToURLParams api.traced s) st
          = [⟨.POST, "/ratelimit",
              ("global", .bool true) :: ("ratelimit-scope", .str "anon") :: limitParams s⟩])
    ∧ ∀ k ∈ paramNames (limitParams s),
        k ∈ ["enabled", "max-read-bytes", "max-write-bytes", "max-read-ops",
          "max-write-ops"] := by
  refine ⟨?_, ?_, ?_, ?_, limitParams_names s⟩
  · intro h
    constructor
    · simp [callsMade, GetUserRateLimit_accept ue valueToURLParams decU api.traced s (st, []) h,
        traced_call, params_get_user s h]
    · simp [callsMade, SetUserRateLimit_accept valueToURLParams api.traced s (st, []) h,
        traced_call, params_set_user s h]
  · intro h
    constructor
    · simp [callsMade,
        GetBucketRateLimit_accept ue valueToURLParams decB api.traced s (st, []) h,
        traced_call, params_get_bucket s h]
    · simp [callsMade, SetBucketRateLimit_accept valueToURLParams api.traced s (st, []) h,
        traced_call, params_set_bucket s h]
  · simp [callsMade, GetGlobalRateLimit_eq ue valueToURLParams decG api.traced (st, []),
      traced_call, params_get_global]
  · intro h
    refine ⟨?_, ?_, ?_⟩
    · simp [callsMade, SetGlobalUserRateLimit_accept valueToURLParams api.traced s (st, []) h,
        traced_call, params_set_global s "user" h]
    · simp [callsMade,
        SetGlobalBucketRateLimit_accept valueToURLParams api.traced s (st, []) h,
        traced_call, params_set_global s "bucket" h]
    · simp [callsMade,
        SetGlobalAnonymousRateLimit_accept valueToURLParams api.traced s (st, []) h,
        traced_call, params_set_global s "anon" h]

/-- Witness of C4: a spec that names a user, a bucket and the global flag at once passes the
validation of every operation; the bucket never reaches a user request, nor the UID a bucket
request, nor either of them a global request. -/
theorem wire_fields_allow_list_witness :
    (callsMade (GetUserRateLimit "e" valueToURLParams (fun _ => .ok {})
          (constAPI (.ok "")).traced threeTargets) ()
        = [⟨.GET, "/ratelimit", [("uid", .str "alice"), ("ratelimit-scope", .str "user")]⟩]
      ∧ callsMade (SetUserRateLimit valueToURLParams (constAPI (.ok "")).traced threeTargets) ()
        = [⟨.POST, "/ratelimit", [("uid", .str "alice"), ("ratelimit-scope", .str "user")]⟩])
    ∧ (callsMade (GetBucketRateLimit "e" valueToURLParams (fun _ => .ok {})
          (constAPI (.ok "")).traced threeTargets) ()
        = [⟨.GET, "/ratelimit",
            [("bucket", .str "photos"), ("ratelimit-scope", .str "bucket")]⟩]
      ∧ callsMade (SetBucketRateLimit valueToURLParams
          (constAPI (.ok "")).traced threeTargets) ()
        = [⟨.POST, "/ratelimit",
            [("bucket", .str "photos"), ("ratelimit-scope", .str "bucket")]⟩])
    ∧ (callsMade (SetGlobalUserRateLimit valueToURLParams
          (constAPI (.ok "")).traced threeTargets) ()
        = [⟨.POST, "/ratelimit", [("global", .bool true), ("ratelimit-scope", .str "user")]⟩]
      ∧ callsMade (SetGlobalBucketRateLimit valueToURLParams
          (constAPI (.ok "")).traced threeTargets) ()
        = [⟨.POST, "/ratelimit", [("global", .bool true), ("ratelimit-scope", .str "bucket")]⟩]
      ∧ callsMade (SetGlobalAnonymousRateLimit valueToURLParams
          (constAPI (.ok "")).traced threeTargets) ()
        = [⟨.POST, "/ratelimit", [("global", .bool true), ("ratelimit-scope", .str "anon")]⟩]) :=
  have h := wire_fields_allow_list "e" (fun _ => .ok {}) (fun _ => .ok {}) (fun _ => .ok {})
    (constAPI (.ok "")) threeTargets ()
  ⟨h.1 (by decide), h.2.1 (by decide), h.2.2.2.1 rfl⟩

theorem unmarshalErrorf_contains (ue body m : String) :
    ∃ msg, (unmarshalErrorf ue body m).wrappedMsg = some msg ∧ containsText msg body :=
  ⟨ue ++ ". " ++ body ++ ". " ++ m, rfl, ue ++ ". ", ". " ++ m, by
    simp [String.append_assoc]⟩

theorem getOutcome_decode {α : Type} (zero : α) (ue : String)
    (dec : String → Except String α) (b : String) :
    (∀ m, dec b = .error m →
      ∃ e msg, getOutcome zero ue dec (.ok b) = (zero, some e)
        ∧ e.wrappedMsg = some msg ∧ containsText msg b ∧ e.Unwrap = some (.json m))
    ∧ ∀ v, dec b = .ok v → getOutcome zero ue dec (.ok b) = (v, none) := by
  constructor
  · intro m hm
    obtain ⟨msg, h1, h2⟩ := unmarshalErrorf_contains ue b m
    exact ⟨unmarshalErrorf ue b m, msg, by simp [getOutcome, hm], h1, h2, rfl⟩
  · intro v hv
    simp [getOutcome, hv]

/-- C5: when api.call succeeds with a body b, each Get* operation returns, if b does not
decode, the zero response and an error built by fmt.Errorf whose message contains b verbatim
and which wraps the decode error, and, if b decodes, the decoded value and no error. -/
theorem decode_failure_wraps_body (ue : String) (enc : RateLimitSpec → List String → V)
    (decU : String → Except String UserRateLimit)
    (decB : String → Except String BucketRateLimit)
    (decG : String → Except String GlobalRateLimit)
    (api : API σ V) (s : RateLimitSpec) (st st1 : σ) (b : String) :
    (s.UID ≠ "" →
      api.call .GET "/ratelimit" (enc { s with Scope := "user" } ["uid", "ratelimit-scope"]) st
        = (.ok b, st1) →
      (∀ m, decU b = .error m →
        ∃ e msg, GetUserRateLimit ue enc decU api s st = (({}, some e), st1)
          ∧ e.wrappedMsg = some msg ∧ containsText msg b ∧ e.Unwrap = some (.json m))
      ∧ ∀ v, decU b = .ok v → GetUserRateLimit ue enc decU api s st = ((v, none), st1))
    ∧ (s.Bucket ≠ "" →
      api.call .GET "/ratelimit"
          (enc { s with Scope := "bucket" } ["bucket", "ratelimit-scope"]) st
        = (.ok b, st1) →
      (∀ m, decB b = .error m →
        ∃ e msg, GetBucketRateLimit ue enc decB api s st = (({}, some e), st1)
          ∧ e.wrappedMsg = some msg ∧ containsText msg b ∧ e.Unwrap = some (.json m))
      ∧ ∀ v, decB b = .ok v → GetBucketRateLimit ue enc decB api s st = ((v, none), st1))
    ∧ (api.call .GET "/ratelimit" (enc { Global := some true } ["global"]) st
        = (.ok b, st1) →
      (∀ m, decG b = .error m →
        ∃ e msg, GetGlobalRateLimit ue enc decG api st = (({}, some e), st1)
          ∧ e.wrappedMsg = some msg ∧ containsText msg b ∧ e.Unwrap = some (.json m))
      ∧ ∀ v, decG b = .ok v → GetGlobalRateLimit ue enc decG api st = ((v, none), st1)) := by
  refine ⟨?_, ?_, ?_⟩
  · intro h hcall
    rw [GetUserRateLimit_accept ue enc decU api s st h, hcall]
    constructor
    · intro m hm
      obtain ⟨e, msg, h1, h2, h3, h4⟩ := (getOutcome_decode {} ue decU b).1 m hm
      exact ⟨e, msg, by simp [h1], h2, h3, h4⟩
    · intro v hv
      simp [(getOutcome_decode {} ue decU b).2 v hv]
  · intro h hcall
    rw [GetBucketRateLimit_accept ue enc decB api s st h, hcall]
    constructor
    · intro m hm
      obtain ⟨e, msg, h1, h2, h3, h4⟩ := (getOutcome_decode {} ue decB b).1 m hm
      exact ⟨e, msg, by simp [h1], h2, h3, h4⟩
    · intro v hv
      simp [(getOutcome_decode {} ue decB b).2 v hv]
  · intro hcall
    rw [GetGlobalRateLimit_eq ue enc decG api st, hcall]
    constructor
    · intro m hm
      obtain ⟨e, msg, h1, h2, h3, h4⟩ := (getOutcome_decode {} ue decG b).1 m hm
      exact ⟨e, msg, by simp [h1], h2, h3, h4⟩
    · intro v hv
      simp [(getOutcome_decode {} ue decG b).2 v hv]

/-- Witness of C5: against a gateway that answers every request with the body `<html>`, a
reader that fails on it makes GetUserRateLimit return the zero response and a wrapped error
with the body in its message, and a reader that accepts it makes GetUserRateLimit return
what was read. -/
theorem decode_failure_wraps_body_witness :
    (∃ e msg, GetUserRateLimit "unmarshal failed" valueToURLParams
          (fun _ => .error "invalid character") (constAPI (.ok "<html>")) aliceLimits ()
        = (({}, some e), ())
      ∧ e.wrappedMsg = some msg ∧ containsText msg "<html>"
      ∧ e.Unwrap = some (.json "invalid character"))
    ∧ GetUserRateLimit "unmarshal failed" valueToURLParams
          (fun _ => .ok aliceResponse) (constAPI (.ok "<html>")) aliceLimits ()
        = ((aliceResponse, none), ()) :=
  ⟨((decode_failure_wraps_body "unmarshal failed" valueToURLParams
      (fun _ => .error "invalid character") (fun _ => .error "invalid character")
      (fun _ => .error "invalid character") (constAPI (.ok "<html>")) aliceLimits () ()
      "<html>").1 (by decide) rfl).1 "invalid character" rfl,
   ((decode_failure_wraps_body "unmarshal failed" valueToURLParams
      (fun _ => .ok aliceResponse) (fun _ => .ok {}) (fun _ => .ok {})
      (constAPI (.ok "<html>")) aliceLimits () () "<html>").1 (by decide) rfl).2
      aliceResponse rfl⟩

theorem singleAttempt_traced {ρ : Type} (api : API σ V) (st : σ) (m : Method) (v : V)
    (f : Except Error String → ρ) (onError : Error → ρ)
    (hf : ∀ e, f (.error e) = onError e) :
    singleAttempt api st m onError
      (f (api.traced.call m "/ratelimit" v (st, [])).1,
        (api.traced.call m "/ratelimit" v (st, [])).2) := by
  refine ⟨v, rfl, rfl, ?_⟩
  intro e he
  simp only [traced_call, he, hf]

/-- C10: every rate-limit operation is a single-attempt passthrough: on an input that passes
validation it calls api.call exactly once, on the path /ratelimit, with GET for the three
Get* operations and POST for the five Set* operations, and when that call answers with an
error it returns that error unchanged, with the zero response for Get*, whatever the
decoder. -/
theorem single_attempt_passthrough (ue : String) (enc : RateLimitSpec → List String → V)
    (decU : String → Except String UserRateLimit)
    (decB : String → Except String BucketRateLimit)
    (decG : String → Except String GlobalRateLimit)
    (api : API σ V) (s : RateLimitSpec) (st : σ) :
    (s.UID ≠ "" →
      singleAttempt api st .GET (fun e => (({} : UserRateLimit), some e))
          (GetUserRateLimit ue enc decU api.traced s (st, []))
      ∧ singleAttempt api st .POST some (SetUserRateLimit enc api.traced s (st, [])))
    ∧ (s.Bucket ≠ "" →
      singleAttempt api st .GET (fun e => (({} : BucketRateLimit), some e))
          (GetBucketRateLimit ue enc decB api.traced s (st, []))
      ∧ singleAttempt api st .POST some (SetBucketRateLimit enc api.traced s (st, [])))
    ∧ singleAttempt api st .GET (fun e => (({} : GlobalRateLimit), some e))
        (GetGlobalRateLimit ue enc decG api.traced (st, []))
    ∧ (s.Global = some true →
      singleAttempt api st .POST some (SetGlobalUserRateLimit enc api.traced s (st, []))
      ∧ singleAttempt api st .POST some (SetGlobalBucketRateLimit enc api.traced s (st, []))
      ∧ singleAttempt api st .POST some
          (SetGlobalAnonymousRateLimit enc api.traced s (st, []))) := by
  refine ⟨?_, ?_, ?_, ?_⟩
  · intro h
    constructor
    · rw [GetUserRateLimit_accept ue enc decU api.traced s (st, []) h]
      exact singleAttempt_traced api st .GET _ (getOutcome {} ue decU) _ (fun _ => rfl)
    · rw [SetUserRateLimit_accept enc api.traced s (st, []) h]
      exact singleAttempt_traced api st .POST _ setOutcome _ (fun _ => rfl)
  · intro h
    constructor
    · rw [GetBucketRateLimit_accept ue enc decB api.traced s (st, []) h]
      exact singleAttempt_traced api st .GET _ (getOutcome {} ue decB) _ (fun _ => rfl)
    · rw [SetBucketRateLimit_accept enc api.traced s (st, []) h]
      exact singleAttempt_traced api st .POST _ setOutcome _ (fun _ => rfl)
  · rw [GetGlobalRateLimit_eq ue enc decG api.traced (st, [])]
    exact singleAttempt_traced api st .GET _ (getOutcome {} ue decG) _ (fun _ => rfl)
  · intro h
    refine ⟨?_, ?_, ?_⟩
    · rw [SetGlobalUserRateLimit_accept enc api.traced s (st, []) h]
      exact singleAttempt_traced api st .POST _ setOutcome _ (fun _ => rfl)
    · rw [SetGlobalBucketRateLimit_accept enc api.traced s (st, []) h]
      exact singleAttempt_traced api st .POST _ setOutcome _ (fun _ => rfl)
    · rw [SetGlobalAnonymousRateLimit_accept enc api.traced s (st, []) h]
      exact singleAttempt_traced api st .POST _ setOutcome _ (fun _ => rfl)

/-- Witness of C10: against a gateway that refuses every request, the spec `threeTargets`
passes the validation of every operation, and each makes its one call. -/
theorem single_attempt_passthrough_witness :
    (singleAttempt (constAPI (.error (.transport "503"))) () .GET
        (fun e => (({} : UserRateLimit), some e))
        (GetUserRateLimit "e" valueToURLParams (fun _ => .ok {})
          (constAPI (.error (.transport "503"))).traced threeTargets ((), []))
      ∧ singleAttempt (constAPI (.error (.transport "503"))) () .POST some
        (SetUserRateLimit valueToURLParams
          (constAPI (.error (.transport "503"))).traced threeTargets ((), [])))
    ∧ (singleAttempt (constAPI (.error (.transport "503"))) () .GET
        (fun e => (({} : BucketRateLimit), some e))
        (GetBucketRateLimit "e" valueToURLParams (fun _ => .ok {})
          (constAPI (.error (.transport "503"))).traced threeTargets ((), []))
      ∧ singleAttempt (constAPI (.error (.transport "503"))) () .POST some
        (SetBucketRateLimit valueToURLParams
          (constAPI (.error (.transport "503"))).traced threeTargets ((), [])))
    ∧ (singleAttempt (constAPI (.error (.transport "503"))) () .POST some
        (SetGlobalUserRateLimit valueToURLParams
          (constAPI (.error (.transport "503"))).traced threeTargets ((), []))
      ∧ singleAttempt (constAPI (.error (.transport "503"))) () .POST some
        (SetGlobalBucketRateLimit valueToURLParams
          (constAPI (.error (.transport "503"))).traced threeTargets ((), []))
      ∧ singleAttempt (constAPI (.error (.transport "503"))) () .POST some
        (SetGlobalAnonymousRateLimit valueToURLParams
          (constAPI (.error (.transport "503"))).traced threeTargets ((), []))) :=
  have h := single_attempt_passthrough "e" valueToURLParams (fun _ => .ok {})
    (fun _ => .ok {}) (fun _ => .ok {}) (constAPI (.error (.transport "503")))
    threeTargets ()
  ⟨h.1 (by decide), h.2.1 (by decide), h.2.2.2 rfl⟩

theorem posted_params_read_back (s : RateLimitSpec) (k : String) (v : ParamValue) :
    paramStr (("uid", .str k) :: ("ratelimit-scope", v) :: limitParams s) "uid" = some k
    ∧ paramInt (("uid", .str k) :: ("ratelimit-scope", v) :: limitParams s) "max-read-ops"
        = s.MaxReadOps
    ∧ paramInt (("uid", .str k) :: ("ratelimit-scope", v) :: limitParams s) "max-write-ops"
        = s.MaxWriteOps
    ∧ paramInt (("uid", .str k) :: ("ratelimit-scope", v) :: limitParams s) "max-read-bytes"
        = s.MaxReadBytes
    ∧ paramInt (("uid", .str k) :: ("ratelimit-scope", v) :: limitParams s) "max-write-bytes"
        = s.MaxWriteBytes
    ∧ paramBool (("uid", .str k) :: ("ratelimit-scope", v) :: limitParams s) "enabled"
        = s.Enabled := by
  rcases s with ⟨uid, bucket, g, sc, en, rb, wb, ro, wo⟩
  cases en <;> cases rb <;> cases wb <;> cases ro <;> cases wo <;>
    simp [paramStr, paramInt, paramBool, limitParams, List.lookup]

theorem gateway_post (render : UserRateLimit → String) (s : RateLimitSpec)
    (st : String → RateLimit) :
    (gateway render).call .POST "/ratelimit"
        (("uid", .str s.UID) :: ("ratelimit-scope", .str "user") :: limitParams s) st
      = (.ok "", Function.update st s.UID
          { MaxReadOps := s.MaxReadOps, MaxWriteOps := s.MaxWriteOps,
            MaxReadBytes := s.MaxReadBytes, MaxWriteBytes := s.MaxWriteBytes,
            Enabled := s.Enabled }) := by
  obtain ⟨h1, h2, h3, h4, h5, h6⟩ := posted_params_read_back s s.UID (.str "user")
  have h0 : paramStr (("uid", .str s.UID) :: ("ratelimit-scope", .str "user") :: limitParams s)
      "ratelimit-scope" = some "user" := by
    simp [paramStr, List.lookup]
  simp only [gateway, h0, h1, h2, h3, h4, h5, h6]
  simp

theorem gateway_get (render : UserRateLimit → String) (uid : String)
    (st : String → RateLimit) :
    (gateway render).call .GET "/ratelimit"
        [("uid", .str uid), ("ratelimit-scope", .str "user")] st
      = (.ok (render { UserRateLimit := st uid }), st) := by
  simp [gateway, paramStr, List.lookup]

/-- C7: round trip.  Against the gateway that stores the posted limit parameters of a user
and reports them under user_ratelimit, for a non-empty UID and any choice of the five
limits, SetUserRateLimit succeeds and a following GetUserRateLimit with the same UID
(whatever its other fields) succeeds with a response whose five limit fields are the values
that were set, provided the decoder reads the body that the gateway writes for them. -/
theorem set_then_get_user_roundtrip (ue : String) (render : UserRateLimit → String)
    (dec : String → Except String UserRateLimit) (s q : RateLimitSpec)
    (st : String → RateLimit) (hUID : s.UID ≠ "") (hq : q.UID = s.UID)
    (hcodec : dec (render { UserRateLimit :=
        { MaxReadOps := s.MaxReadOps, MaxWriteOps := s.MaxWriteOps,
          MaxReadBytes := s.MaxReadBytes, MaxWriteBytes := s.MaxWriteBytes,
          Enabled := s.Enabled } })
      = .ok { UserRateLimit :=
        { MaxReadOps := s.MaxReadOps, MaxWriteOps := s.MaxWriteOps,
          MaxReadBytes := s.MaxReadBytes, MaxWriteBytes := s.MaxWriteBytes,
          Enabled := s.Enabled } }) :
    (SetUserRateLimit valueToURLParams (gateway render) s st).1 = none
    ∧ (GetUserRateLimit ue valueToURLParams dec (gateway render) q
        (SetUserRateLimit valueToURLParams (gateway render) s st).2).1.2 = none
    ∧ (GetUserRateLimit ue valueToURLParams dec (gateway render) q
        (SetUserRateLimit valueToURLParams (gateway render) s st).2).1.1.UserRateLimit
      = { MaxReadOps := s.MaxReadOps, MaxWriteOps := s.MaxWriteOps,
          MaxReadBytes := s.MaxReadBytes, MaxWriteBytes := s.MaxWriteBytes,
          Enabled := s.Enabled } := by
  have hq2 : q.UID ≠ "" := by rw [hq]; exact hUID
  rw [SetUserRateLimit_accept valueToURLParams (gateway render) s st hUID,
    params_set_user s hUID, gateway_post render s st]
  rw [GetUserRateLimit_accept ue valueToURLParams dec (gateway render) q _ hq2,
    params_get_user q hq2, gateway_get render q.UID, hq]
  simp only [Function.update_same, getOutcome, hcodec, setOutcome]
  exact ⟨trivial, trivial, trivial⟩

/-- Witness of C7: the limits of `aliceLimits` are set and read back against a gateway that
holds nothing at first. -/
theorem set_then_get_user_roundtrip_witness :
    (SetUserRateLimit valueToURLParams (gateway aliceRender) aliceLimits (fun _ => {})).1
      = none
    ∧ (GetUserRateLimit "e" valueToURLParams aliceUnmarshal (gateway aliceRender)
        { UID := "alice" }
        (SetUserRateLimit valueToURLParams (gateway aliceRender) aliceLimits
          (fun _ => {})).2).1.2 = none
    ∧ (GetUserRateLimit "e" valueToURLParams aliceUnmarshal (gateway aliceRender)
        { UID := "alice" }
        (SetUserRateLimit valueToURLParams (gateway aliceRender) aliceLimits
          (fun _ => {})).2).1.1.UserRateLimit
      = { MaxReadOps := some 100, MaxWriteOps := some 50, MaxReadBytes := some 1048576,
          MaxWriteBytes := some 524288, Enabled := some true } :=
  set_then_get_user_roundtrip "e" aliceRender aliceUnmarshal aliceLimits { UID := "alice" }
    (fun _ => {}) (by decide) rfl (by rfl)

theorem GetUserRateLimit_calls (ue : String) (enc : RateLimitSpec → List String → V)
    (dec : String → Except String UserRateLimit) (api : API σ V) (s : RateLimitSpec) (st : σ) :
    callsMade (GetUserRateLimit ue enc dec api.traced s) st ≠ [] ↔ s.UID ≠ "" := by
  constructor
  · intro h he
    exact h (by simp [callsMade, GetUserRateLimit_reject ue enc dec api.traced s (st, []) he])
  · intro h
    simp [callsMade, GetUserRateLimit_accept ue enc dec api.traced s (st, []) h, traced_call]

theorem SetUserRateLimit_calls (enc : RateLimitSpec → List String → V)
    (api : API σ V) (s : RateLimitSpec) (st : σ) :
    callsMade (SetUserRateLimit enc api.traced s) st ≠ [] ↔ s.UID ≠ "" := by
  constructor
  · intro h he
    exact h (by simp [callsMade, SetUserRateLimit_reject enc api.traced s (st, []) he])
  · intro h
    simp [callsMade, SetUserRateLimit_accept enc api.traced s (st, []) h, traced_call]

theorem GetBucketRateLimit_calls (ue : String) (enc : RateLimitSpec → List String → V)
    (dec : String → Except String BucketRateLimit) (api : API σ V) (s : RateLimitSpec) (st : σ) :
    callsMade (GetBucketRateLimit ue enc dec api.traced s) st ≠ [] ↔ s.Bucket ≠ "" := by
  constructor
  · intro h he
    exact h (by simp [callsMade, GetBucketRateLimit_reject ue enc dec api.traced s (st, []) he])
  · intro h
    simp [callsMade, GetBucketRateLimit_accept ue enc dec api.traced s (st, []) h, traced_call]

theorem SetBucketRateLimit_calls (enc : RateLimitSpec → List String → V)
    (api : API σ V) (s : RateLimitSpec) (st : σ) :
    callsMade (SetBucketRateLimit enc api.traced s) st ≠ [] ↔ s.Bucket ≠ "" := by
  constructor
  · intro h he
    exact h (by simp [callsMade, SetBucketRateLimit_reject enc api.traced s (st, []) he])
  · intro h
    simp [callsMade, SetBucketRateLimit_accept enc api.traced s (st, []) h, traced_call]

theorem SetGlobalUserRateLimit_calls (enc : RateLimitSpec → List String → V)
    (api : API σ V) (s : RateLimitSpec) (st : σ) :
    callsMade (SetGlobalUserRateLimit enc api.traced s) st ≠ [] ↔ s.Global = some true := by
  constructor
  · intro h
    rcases global_flag_cases s.Global with hg | hg
    · exact absurd (by simp [callsMade, SetGlobalUserRateLimit_reject enc api.traced s (st, []) hg]) h
    · exact hg
  · intro h
    simp [callsMade, SetGlobalUserRateLimit_accept enc api.traced s (st, []) h, traced_call]

theorem SetGlobalBucketRateLimit_calls (enc : RateLimitSpec → List String → V)
    (api : API σ V) (s : RateLimitSpec) (st : σ) :
    callsMade (SetGlobalBucketRateLimit enc api.traced s) st ≠ [] ↔ s.Global = some true := by
  constructor
  · intro h
    rcases global_flag_cases s.Global with hg | hg
    · exact absurd (by simp [callsMade, SetGlobalBucketRateLimit_reject enc api.traced s (st, []) hg]) h
    · exact hg
  · intro h
    simp [callsMade, SetGlobalBucketRateLimit_accept enc api.traced s (st, []) h, traced_call]

theorem SetGlobalAnonymousRateLimit_calls (enc : RateLimitSpec → List String → V)
    (api : API σ V) (s : RateLimitSpec) (st : σ) :
    callsMade (SetGlobalAnonymousRateLimit enc api.traced s) st ≠ [] ↔ s.Global = some true := by
  constructor
  · intro h
    rcases global_flag_cases s.Global with hg | hg
    · exact absurd (by simp [callsMade, SetGlobalAnonymousRateLimit_reject enc api.traced s (st, []) hg]) h
    · exact hg
  · intro h
    simp [callsMade, SetGlobalAnonymousRateLimit_accept enc api.traced s (st, []) h, traced_call]

/-- C6, as it is in the code: an operation accepts a spec (makes its call) exactly when the
target identifier of that operation is present, a non-empty UID for the user operations, a
non-empty bucket name for the bucket operations, a Global flag pointing to true for the
SetGlobal* operations; so every accepted spec has at least one of the three identifiers.
The other two identifiers play no part in the validation. -/
theorem accepted_spec_has_own_target (ue : String) (enc : RateLimitSpec → List String → V)
    (decU : String → Except String UserRateLimit)
    (decB : String → Except String BucketRateLimit)
    (api : API σ V) (s : RateLimitSpec) (st : σ) :
    (callsMade (GetUserRateLimit ue enc decU api.traced s) st ≠ [] ↔ s.UID ≠ "")
    ∧ (callsMade (SetUserRateLimit enc api.traced s) st ≠ [] ↔ s.UID ≠ "")
    ∧ (callsMade (GetBucketRateLimit ue enc decB api.traced s) st ≠ [] ↔ s.Bucket ≠ "")
    ∧ (callsMade (SetBucketRateLimit enc api.traced s) st ≠ [] ↔ s.Bucket ≠ "")
    ∧ (callsMade (SetGlobalUserRateLimit enc api.traced s) st ≠ [] ↔ s.Global = some true)
    ∧ (callsMade (SetGlobalBucketRateLimit enc api.traced s) st ≠ [] ↔ s.Global = some true)
    ∧ (callsMade (SetGlobalAnonymousRateLimit enc api.traced s) st ≠ []
        ↔ s.Global = some true)
    ∧ (callsMade (GetUserRateLimit ue enc decU api.traced s) st ≠ []
        ∨ callsMade (SetUserRateLimit enc api.traced s) st ≠ []
        ∨ callsMade (GetBucketRateLimit ue enc decB api.traced s) st ≠ []
        ∨ callsMade (SetBucketRateLimit enc api.traced s) st ≠ []
        ∨ callsMade (SetGlobalUserRateLimit enc api.traced s) st ≠ []
        ∨ callsMade (SetGlobalBucketRateLimit enc api.traced s) st ≠ []
        ∨ callsMade (SetGlobalAnonymousRateLimit enc api.traced s) st ≠ [] →
      someTarget s = true) := by
  refine ⟨GetUserRateLimit_calls ue enc decU api s st, SetUserRateLimit_calls enc api s st,
    GetBucketRateLimit_calls ue enc decB api s st, SetBucketRateLimit_calls enc api s st,
    SetGlobalUserRateLimit_calls enc api s st, SetGlobalBucketRateLimit_calls enc api s st,
    SetGlobalAnonymousRateLimit_calls enc api s st, ?_⟩
  intro h
  simp only [someTarget, Bool.or_eq_true, decide_eq_true_eq]
  rcases h with h | h | h | h | h | h | h
  · exact Or.inl (Or.inl ((GetUserRateLimit_calls ue enc decU api s st).1 h))
  · exact Or.inl (Or.inl ((SetUserRateLimit_calls enc api s st).1 h))
  · exact Or.inl (Or.inr ((GetBucketRateLimit_calls ue enc decB api s st).1 h))
  · exact Or.inl (Or.inr ((SetBucketRateLimit_calls enc api s st).1 h))
  · exact Or.inr ((SetGlobalUserRateLimit_calls enc api s st).1 h)
  · exact Or.inr ((SetGlobalBucketRateLimit_calls enc api s st).1 h)
  · exact Or.inr ((SetGlobalAnonymousRateLimit_calls enc api s st).1 h)

/-- Witness of the amended C6: SetUserRateLimit accepts the spec `aliceLimits`, which names a
user and nothing else, and that spec has a target identifier. -/
theorem accepted_spec_has_own_target_witness : someTarget aliceLimits = true :=
  (accepted_spec_has_own_target "e" valueToURLParams (fun _ => .ok {}) (fun _ => .ok {})
    (constAPI (.ok "")) aliceLimits ()).2.2.2.2.2.2.2 (Or.inr (Or.inl (by decide)))

/-- Counterexample to C6 as stated: SetUserRateLimit accepts the spec `threeTargets` (it
makes its call and returns no error), although that spec carries a UID, a bucket name and a
Global flag pointing to true at once. -/
theorem exactly_one_target_counterexample :
    callsMade (SetUserRateLimit valueToURLParams (constAPI (.ok "")).traced threeTargets) ()
        = [⟨.POST, "/ratelimit", [("uid", .str "alice"), ("ratelimit-scope", .str "user")]⟩]
    ∧ (SetUserRateLimit valueToURLParams (constAPI (.ok "")) threeTargets ()).1 = none
    ∧ threeTargets.UID ≠ "" ∧ threeTargets.Bucket ≠ "" ∧ threeTargets.Global = some true
    ∧ exactlyOneTarget threeTargets = false := by
  refine ⟨rfl, rfl, by decide, by decide, rfl, by decide⟩

end RgwAdmin

namespace Rbd

theorem groupExists_after_remove (c : Cluster) (pool : PoolId) (name : String) :
    groupExists (rbd_group_remove pool name c).2 pool name = false := by
  unfold rbd_group_remove
  split
  · simp only [groupExists, List.any_filter, List.any_eq_false]
    intro x _
    cases hx : (x.pool = pool && x.name = name : Bool) <;> simp_all
  · rename_i h
    simpa using h

theorem groups_kept_by_remove (c : Cluster) (pool : PoolId) (name : String) (g : Group)
    (hg : g ∈ c.groups) (hne : g.pool ≠ pool ∨ g.name ≠ name) :
    g ∈ (rbd_group_remove pool name c).2.groups := by
  unfold rbd_group_remove
  split
  · simp only [List.mem_filter]
    refine ⟨hg, ?_⟩
    rcases hne with h | h <;> simp [h]
  · exact hg

theorem GroupRemove_missing (c : Cluster) (ioctx : PoolId) (name : String)
    (h : groupExists c ioctx name = false) : GroupRemove ioctx name c = (none, c) := by
  simp [GroupRemove, rbd_group_remove, h]

theorem GroupRemove_state (c : Cluster) (ioctx : PoolId) (name : String) :
    (GroupRemove ioctx name c).2 = (rbd_group_remove ioctx name c).2 := by
  unfold GroupRemove
  split <;> simp_all

/-- C8: in the model of the group operations, on an open pool context, removing a group that
does not exist returns no error and leaves the cluster as it is, whereas renaming from a
name that does not exist returns an error; after a removal the group does not exist, so
removing it once more returns no error and changes nothing, and a removal keeps every other
group. -/
theorem remove_idempotent_rename_fails (c : Cluster) (ioctx : PoolId) (name : String) :
    (groupExists c ioctx name = false →
      GroupRemove ioctx name c = (none, c)
      ∧ ∀ dest, GroupRename ioctx name dest c = (some .ErrNotFound, c))
    ∧ groupExists (GroupRemove ioctx name c).2 ioctx name = false
    ∧ GroupRemove ioctx name (GroupRemove ioctx name c).2
        = (none, (GroupRemove ioctx name c).2)
    ∧ ∀ g ∈ c.groups, (g.pool ≠ ioctx ∨ g.name ≠ name) →
        g ∈ (GroupRemove ioctx name c).2.groups := by
  have hgone : groupExists (GroupRemove ioctx name c).2 ioctx name = false := by
    rw [GroupRemove_state]
    exact groupExists_after_remove c ioctx name
  refine ⟨?_, hgone, GroupRemove_missing _ ioctx name hgone, ?_⟩
  swap
  · intro g hg hne
    rw [GroupRemove_state]
    exact groups_kept_by_remove c ioctx name g hg hne
  intro h
  refine ⟨GroupRemove_missing c ioctx name h, ?_⟩
  intro dest
  simp [GroupRename, rbd_group_rename, h, getError]

/-- Witness of C8: in `sampleCluster` there is no group `group2` in pool 0; removing it
succeeds and keeps both groups, renaming it fails. -/
theorem remove_idempotent_rename_fails_witness :
    GroupRemove 0 "group2" sampleCluster = (none, sampleCluster)
    ∧ ∀ dest, GroupRename 0 "group2" dest sampleCluster = (some .ErrNotFound, sampleCluster) :=
  (remove_idempotent_rename_fails sampleCluster 0 "group2").1 (by decide)

/-- C9: in the model of the group operations, each of GroupImageAdd, GroupImageRemove and
GroupImageRemoveByID panics when the pool handle of the group or that of the image is nil,
and returns a non-nil error, without a panic, when both handles are valid and the group does
not exist; a panic and a returned result are different outcomes. -/
theorem image_ops_panic_or_error (c : Cluster) (groupName imageName : String) :
    (∀ groupIoctx imageIoctx : IOContext, groupIoctx = none ∨ imageIoctx = none →
      GroupImageAdd groupIoctx groupName imageIoctx imageName c = (.panicked, c)
      ∧ GroupImageRemove groupIoctx groupName imageIoctx imageName c = (.panicked, c)
      ∧ GroupImageRemoveByID groupIoctx groupName imageIoctx imageName c = (.panicked, c))
    ∧ (∀ g i : PoolId, groupExists c g groupName = false →
      GroupImageAdd (some g) groupName (some i) imageName c
          = (.returned (some .ErrNotFound), c)
      ∧ GroupImageRemove (some g) groupName (some i) imageName c
          = (.returned (some .ErrNotFound), c)
      ∧ GroupImageRemoveByID (some g) groupName (some i) imageName c
          = (.returned (some .ErrNotFound), c))
    ∧ ∀ err, Outcome.panicked ≠ Outcome.returned err := by
  refine ⟨?_, ?_, ?_⟩
  · intro gi ii h
    cases gi with
    | none => exact ⟨rfl, rfl, rfl⟩
    | some g =>
      cases ii with
      | none => exact ⟨rfl, rfl, rfl⟩
      | some i => simp at h
  · intro g i h
    refine ⟨?_, ?_, ?_⟩
    · simp [GroupImageAdd, rbd_group_image_add, h, getError]
    · simp [GroupImageRemove, rbd_group_image_remove, h, getError]
    · simp [GroupImageRemoveByID, rbd_group_image_remove_by_id, h, getError]
  · intro err h
    cases h

/-- Witness of C9: with a nil handle on either side the three operations panic, and in
`sampleCluster`, which has no group `badGroup` in pool 0, they return the not-found error. -/
theorem image_ops_panic_or_error_witness :
    (GroupImageAdd none "badGroup" (some 0) "img" sampleCluster = (.panicked, sampleCluster)
      ∧ GroupImageRemove none "badGroup" (some 0) "img" sampleCluster
          = (.panicked, sampleCluster)
      ∧ GroupImageRemoveByID none "badGroup" (some 0) "img" sampleCluster
          = (.panicked, sampleCluster))
    ∧ (GroupImageAdd (some 0) "badGroup" none "img" sampleCluster = (.panicked, sampleCluster)
      ∧ GroupImageRemove (some 0) "badGroup" none "img" sampleCluster
          = (.panicked, sampleCluster)
      ∧ GroupImageRemoveByID (some 0) "badGroup" none "img" sampleCluster
          = (.panicked, sampleCluster))
    ∧ (GroupImageAdd (some 0) "badGroup" (some 0) "img" sampleCluster
          = (.returned (some .ErrNotFound), sampleCluster)
      ∧ GroupImageRemove (some 0) "badGroup" (some 0) "img" sampleCluster
          = (.returned (some .ErrNotFound), sampleCluster)
      ∧ GroupImageRemoveByID (some 0) "badGroup" (some 0) "img" sampleCluster
          = (.returned (some .ErrNotFound), sampleCluster)) :=
  have h := image_ops_panic_or_error sampleCluster "badGroup" "img"
  ⟨h.1 none (some 0) (Or.inl rfl), h.1 (some 0) none (Or.inr rfl), h.2.1 0 0 (by decide)⟩

end Rbd
